import Mathlib

/-!
Verification development for the credential synchronization engine of
`cursor_auth.py` (client-pk repository).

The Python source is shallowly embedded: the SQLite-backed key/value table
becomes an association list, the token file becomes an `Option String`,
stateful functions become explicit state passing, and the network plus the
fault points of the database become explicit oracles (`AttemptEnv`).
Python `None`-able strings are `Option String`; Python truthiness of a
string value is `pyTruthy`.
-/

namespace ClientPk

/-- Python `str.startswith(pre)`, modelled on the character lists of the
two strings (structural recursion, so it evaluates in the kernel). -/
def pyStartswith (s pre : String) : Bool :=
  pre.data.isPrefixOf s.data

/-- Python `str.strip()` on ASCII whitespace, modelled on the character
list: drop whitespace from the front, then from the back. -/
def pyStrip (s : String) : String :=
  ⟨((s.data.dropWhile Char.isWhitespace).reverse.dropWhile Char.isWhitespace).reverse⟩

/-- Python truthiness of an optional string: `None` and `""` are falsy,
every other string is truthy. -/
def pyTruthy : Option String → Bool
  | none => false
  | some s => !(s == "")

/-- Python `key.split('/')[-1]`: the (possibly empty) suffix of the
string after its last `'/'`, computed by a left scan that resets the
accumulator at each separator. -/
def lastCompAux : List Char → List Char → List Char
  | [], acc => acc.reverse
  | c :: cs, acc => if c == '/' then lastCompAux cs [] else lastCompAux cs (c :: acc)

/-- Python `key.split('/')[-1]` on strings. -/
def lastComponent (s : String) : String :=
  ⟨lastCompAux s.data []⟩

/-- The itemTable of the embedded store: rows of (key, value).  The
operations below keep keys unique, mirroring the `key TEXT PRIMARY KEY`
schema. -/
abbrev Store := List (String × String)

/-- The SQL pattern `key LIKE 'cursorAuth/%'` used by both
`clear_auth_info` and `get_auth_info` (both use the identical pattern, so
one shared predicate models both occurrences). -/
def inAuthNamespace (k : String) : Bool :=
  pyStartswith k "cursorAuth/"

/-- Whether an association list carries a key (`SELECT COUNT(*) ... WHERE
key = ?` being non-zero, and Python `k in d`). -/
def assocContains {β : Type} (l : List (String × β)) (k : String) : Bool :=
  l.any (fun p => p.1 == k)

/-- First value an association list carries under a key (`SELECT value
FROM itemTable WHERE key = ?`, and Python `d.get(k)` / `d[k]`). -/
def assocGet {β : Type} (l : List (String × β)) (k : String) : Option β :=
  (l.find? (fun p => p.1 == k)).map (fun p => p.2)

/-- First value stored under a key. -/
def storeGet (rows : Store) (k : String) : Option String :=
  assocGet rows k

/-- The body of the write loop of `CursorAuthManager.update_auth`
(cursor_auth.py lines 210-223): `SELECT COUNT(*) ... WHERE key = ?`, then
`INSERT` when the count is 0 and `UPDATE ... WHERE key = ?` otherwise (the
UPDATE rewrites the value of every row with that key). -/
def upsert (rows : Store) (k v : String) : Store :=
  if assocContains rows k then
    rows.map (fun r => if r.1 == k then (r.1, v) else r)
  else
    rows ++ [(k, v)]

/-- The statement `DELETE FROM itemTable WHERE key LIKE 'cursorAuth/%'`
(cursor_auth.py lines 69-72). -/
def clearAuthRows (rows : Store) : Store :=
  rows.filter (fun r => !(inAuthNamespace r.1))

/-- The token-validity test that the source writes twice, at
cursor_auth.py line 183 and lines 347/360:
`refresh_token and refresh_token.startswith("ey")`. -/
def tokenValidity : Option String → Bool
  | none => false
  | some t => pyTruthy (some t) && pyStartswith t "ey"

/-- The account-exclusion test of cursor_auth.py line 378:
`status in ["EXCEEDED", "DEPLETED"] or pull_count >= 5`. -/
def accountExcluded (status : Option String) (pullCount : Nat) : Bool :=
  (status == some "EXCEEDED" || status == some "DEPLETED") || decide (5 ≤ pullCount)

/-- The token file `~/.cursor_auth/token`: `none` when the file is absent,
`some c` when it holds the text `c`. -/
abbrev TokenFile := Option String

/-- Function `get_token` (cursor_auth.py lines 39-44): read and strip the file
content, `None` when the file does not exist. -/
def get_token (f : TokenFile) : Option String :=
  match f with
  | none => none
  | some c => some (pyStrip c)

/-- Function `save_token` (cursor_auth.py lines 46-51): write the raw text,
overwriting any previous content. -/
def save_token (_f : TokenFile) (t : String) : TokenFile :=
  some t

/-!
### The database connection of `update_auth`

`update_auth` opens one sqlite3 connection, runs every INSERT/UPDATE
inside the implicit transaction that Python's sqlite3 module opens at the
first data-modifying statement, calls `conn.commit()` only after the whole
write loop has succeeded (line 230), and closes the connection in a
`finally` block.  Closing a connection with an uncommitted transaction
rolls the transaction back (sqlite3 documents that pending changes are
lost), so a write that raises mid-loop leaves the committed table
unchanged.  `DbConn` carries the committed table and the pending view.
-/
structure DbConn where
  committed : Store
  pending : Store
deriving DecidableEq, Repr

/-- Python `sqlite3.connect`: both views start at the on-disk table. -/
def connOpen (rows : Store) : DbConn := ⟨rows, rows⟩

/-- Python `conn.commit()`: publish the pending writes. -/
def connCommit (c : DbConn) : DbConn := ⟨c.pending, c.pending⟩

/-- Python `conn.close()` in the `finally` block: the uncommitted pending view is
discarded; the on-disk table is whatever was last committed. -/
def connClose (c : DbConn) : Store := c.committed

/-- The update list built by `update_auth` (cursor_auth.py lines 170-193):
four fixed marker rows, the two email aliases when `email is not None`,
and the five token aliases when the refresh token passes `tokenValidity`. -/
def buildUpdates (email refresh_token : Option String) : List (String × String) :=
  ([("cursorAuth/cachedSignUpType", "Auth_0"),
    ("cursorAuth/signUpType", "Auth_0"),
    ("cursorAuth/isLoggedIn", "true"),
    ("cursorAuth/stripeMembershipType", "free_trial")]
   ++ (match email with
       | some e => [("cursorAuth/cachedEmail", e), ("cursorAuth/email", e)]
       | none => []))
  ++ (match refresh_token with
      | some t =>
        if tokenValidity (some t) then
          [("cursorAuth/cachedAccessToken", t),
           ("cursorAuth/accessToken", t),
           ("cursorAuth/token", t),
           ("cursorAuth/refreshToken", t),
           ("cursorAuth/cachedRefreshToken", t)]
        else []
      | none => [])

/-- The write loop of `update_auth` (cursor_auth.py lines 210-228) with an
injected fault point: `dbFail = some k` makes the k-th write raise
`sqlite3.Error`, upon which the `except` branch returns failure and the
loop stops; `none` means every write succeeds.  The boolean is the success
of the loop. -/
def writeLoop : DbConn → List (String × String) → Option Nat → Bool × DbConn
  | c, [], _ => (true, c)
  | c, _ :: _, some 0 => (false, c)
  | c, kv :: rest, f =>
    writeLoop { c with pending := upsert c.pending kv.1 kv.2 } rest
      (f.map (fun n => n - 1))

/-- Method `CursorAuthManager.update_auth` (cursor_auth.py lines 161-253) on the
table state.  The unused `_access_token` argument mirrors the source: the
parameter is accepted but never read — every token row receives the
refresh token (line 185).  On a `sqlite3.Error` (injected through
`dbFail`) the function returns `False` and the close in `finally` rolls
the open transaction back. -/
def update_auth (rows : Store) (email : Option String)
    (_access_token : Option String) (refresh_token : Option String)
    (dbFail : Option Nat) : Bool × Store :=
  let updates := buildUpdates email refresh_token
  let c := connOpen rows
  let r := writeLoop c updates dbFail
  let c2 := if r.1 then connCommit r.2 else r.2
  (r.1, connClose c2)

/-!
### `get_auth_info` and its Python dict
-/

/-- A Python dict with string keys and `None`-able string values, as an
insertion-ordered association list with unique keys. -/
abbrev PyDict := List (String × Option String)

/-- Python `k in d`. -/
def pyDictContains (d : PyDict) (k : String) : Bool :=
  assocContains d k

/-- Python `d[k] = v`: overwrite in place when the key exists, append
otherwise. -/
def pyDictInsert (d : PyDict) (k : String) (v : Option String) : PyDict :=
  if pyDictContains d k then
    d.map (fun p => if p.1 == k then (k, v) else p)
  else
    d ++ [(k, v)]

/-- Python `d.get(k)` as `some value` when the key is present. -/
def pyDictGet (d : PyDict) (k : String) : Option (Option String) :=
  assocGet d k

/-- The three sentinel defaults of `get_auth_info` (cursor_auth.py lines
276-282): `if 'email' not in result: result['email'] = '未知'`, then the
same for `accessToken` and `refreshToken` with Python `None`. -/
def applyDefaults (d : PyDict) : PyDict :=
  let d1 := if pyDictContains d "email" then d
    else pyDictInsert d "email" (some "未知")
  let d2 := if pyDictContains d1 "accessToken" then d1
    else pyDictInsert d1 "accessToken" none
  if pyDictContains d2 "refreshToken" then d2
  else pyDictInsert d2 "refreshToken" none

/-- Method `CursorAuthManager.get_auth_info` (cursor_auth.py lines 255-290):
select the rows under `cursorAuth/`, keep the last path component of each
key, then force the three sentinel defaults — `'未知'` for a missing
email, Python `None` for missing tokens.  Total by construction: no key
lookup can raise. -/
def get_auth_info (rows : Store) : PyDict :=
  applyDefaults ((rows.filter (fun r => inAuthNamespace r.1)).foldl
    (fun d r => pyDictInsert d (lastComponent r.1) (some r.2)) [])

/-!
### The sync orchestrator `update_cursor_auth`
-/

/-- The full local state the sync flow touches: the token file and the
itemTable of the store. -/
structure SysState where
  tokenFile : TokenFile
  rows : Store
deriving DecidableEq, Repr

/-- Function `clear_auth_info` (cursor_auth.py lines 53-84): unlink the token file,
then delete every `cursorAuth/` row. -/
def clear_auth_info (st : SysState) : SysState :=
  { tokenFile := none, rows := clearAuthRows st.rows }

/-- The account fields extracted from the provisioning response
(cursor_auth.py lines 339-344); `pull_count` defaults to 0 when absent. -/
structure AccountResp where
  email : Option String
  password : Option String
  refresh_token : Option String
  status : Option String
  pull_count : Nat
deriving DecidableEq, Repr

/-- Outcome of one POST to `/auth/get-cursor-token`: a
`requests.RequestException` (transport failure, non-2xx status or a
non-JSON body), a 2xx body that is not a JSON object (the explicit
`ValueError` of line 336, which is not a `RequestException` and escapes to
the outer handler), or parsed account data. -/
inductive Fetch where
  | netErr
  | malformed
  | ok (acc : AccountResp)
deriving DecidableEq, Repr

/-- Outcome of the fallback POST to `/auth/get-refresh-token`
(cursor_auth.py lines 351-367): any exception in that block, or a parsed
body whose `refresh_token` field is returned. -/
inductive FallbackResult where
  | err
  | ok (refresh_token : Option String)
deriving DecidableEq, Repr

/-- The environment one loop iteration of `update_cursor_auth` can
consult: the primary fetch outcome, the fallback outcome (read only when
the primary refresh token fails `tokenValidity`), and the database fault
point for this attempt's `update_auth` (read only when the commit is
reached). -/
structure AttemptEnv where
  fetch : Fetch
  fallback : FallbackResult
  dbFail : Option Nat
deriving DecidableEq, Repr

/-- What one iteration of the `for attempt in range(max_retries)` loop
does: return from the function, or fall through to the next iteration. -/
inductive StepOut where
  | done (ok : Bool) (st : SysState)
  | next (st : SysState)
deriving DecidableEq, Repr

/-- One iteration of the retry loop of `update_cursor_auth`
(cursor_auth.py lines 306-415).  `isLast` is `attempt == max_retries - 1`.
A fall-through at the end of the last iteration ends the loop, after which
line 418 returns `False`; the driver `syncLoop` realizes that. -/
def attemptStep (st : SysState) (env : AttemptEnv) (isLast : Bool) : StepOut :=
  match env.fetch with
  | .netErr => if isLast then .done false st else .next st
  | .malformed => .done false st
  | .ok acc =>
    let resolved : Option (Option String × Option String) :=
      if tokenValidity acc.refresh_token then
        some (acc.refresh_token, acc.refresh_token)
      else
        match env.fallback with
        | .err => none
        | .ok rt2 => if tokenValidity rt2 then some (rt2, rt2) else none
    match resolved with
    | none => .next st
    | some (access_token, refresh_token) =>
      if accountExcluded acc.status acc.pull_count then
        if isLast then .done false st else .next st
      else if !(pyTruthy acc.email && pyTruthy access_token
                && pyTruthy refresh_token) then
        .next st
      else
        let r := update_auth st.rows acc.email access_token refresh_token
          env.dbFail
        let st2 : SysState := { st with rows := r.2 }
        if r.1 then .done true st2 else .next st2

/-- Constant `max_retries = 3` (cursor_auth.py line 305). -/
def max_retries : Nat := 3

/-- The `for attempt in range(max_retries)` loop driven by the remaining
iteration count; `i` is the attempt index, `reqs` counts the POSTs already
made to the provisioning endpoint (one per iteration entered).  An
exhausted loop is line 417-418: return `False`. -/
def syncLoop (envs : Nat → AttemptEnv) :
    Nat → Nat → SysState → Nat → Bool × SysState × Nat
  | 0, _, st, reqs => (false, st, reqs)
  | remaining + 1, i, st, reqs =>
    match attemptStep st (envs i) (remaining == 0) with
    | .done ok st2 => (ok, st2, reqs + 1)
    | .next st2 => syncLoop envs remaining (i + 1) st2 (reqs + 1)

/-- Function `update_cursor_auth` (cursor_auth.py lines 292-422): require a truthy
stored bearer token (`if not token: return False`), clear the old auth
state, then run the bounded retry loop.  Returns (result, final state,
number of provisioning requests made). -/
def update_cursor_auth (st : SysState) (envs : Nat → AttemptEnv) :
    Bool × SysState × Nat :=
  let token := get_token st.tokenFile
  if !(pyTruthy token) then (false, st, 0)
  else syncLoop envs max_retries 0 (clear_auth_info st) 0

/-! ## Helper lemmas -/

/-- A boolean prefix test on lists succeeds exactly when the long list is
the short one followed by some tail. -/
theorem isPrefixOf_iff_exists_append (p l : List Char) :
    p.isPrefixOf l = true ↔ ∃ t, l = p ++ t := by
  induction p generalizing l with
  | nil => simp
  | cons c cs ih =>
    cases l with
    | nil => simp
    | cons d ds =>
      rw [List.isPrefixOf_cons₂]
      constructor
      · intro h
        have h1 : (c == d) = true ∧ cs.isPrefixOf ds = true := by
          simpa [Bool.and_eq_true] using h
        obtain ⟨t, ht⟩ := (ih ds).mp h1.2
        exact ⟨t, by simp [ht, (beq_iff_eq).mp h1.1]⟩
      · rintro ⟨t, ht⟩
        obtain ⟨rfl, rfl⟩ : d = c ∧ ds = cs ++ t := by
          simpa using ht
        simp [Bool.and_eq_true, (ih (cs ++ t)).mpr ⟨t, rfl⟩]

/-- The test `pyStartswith s p` holds exactly when `s` is `p` followed by some
remainder string. -/
theorem pyStartswith_iff (s p : String) :
    pyStartswith s p = true ↔ ∃ r : String, s = p ++ r := by
  unfold pyStartswith
  rw [isPrefixOf_iff_exists_append]
  constructor
  · rintro ⟨t, ht⟩
    exact ⟨⟨t⟩, String.ext (by simpa using ht)⟩
  · rintro ⟨r, rfl⟩
    exact ⟨r.data, by simp⟩

/-- A string that extends `"ey"` is non-empty. -/
theorem ey_append_ne_empty (r : String) : ("ey" ++ r) ≠ "" := by
  intro h
  have := String.ext_iff.mp h
  simp at this

section AssocLemmas

variable {β : Type}

/-- Head with the sought key: the lookup returns its value. -/
theorem assocGet_cons_pos {p : String × β} {l : List (String × β)} {k : String}
    (h : (p.1 == k) = true) : assocGet (p :: l) k = some p.2 := by
  unfold assocGet
  simp [List.find?_cons, h]

/-- Head with a different key: the lookup skips it. -/
theorem assocGet_cons_neg {p : String × β} {l : List (String × β)} {k : String}
    (h : (p.1 == k) = false) : assocGet (p :: l) k = assocGet l k := by
  unfold assocGet
  simp [List.find?_cons, h]

/-- When the left part has no row with the key, the lookup continues on
the right part. -/
theorem assocGet_append_right {l₁ l₂ : List (String × β)} {k : String}
    (h : assocContains l₁ k = false) :
    assocGet (l₁ ++ l₂) k = assocGet l₂ k := by
  unfold assocGet
  have hn : l₁.find? (fun p => p.1 == k) = none := by
    rw [List.find?_eq_none]
    intro x hx hpx
    have : assocContains l₁ k = true := List.any_eq_true.mpr ⟨x, hx, hpx⟩
    rw [h] at this
    exact Bool.false_ne_true this
  rw [List.find?_append, hn, Option.none_or]

/-- When the right part has no row with the key, the lookup finishes on
the left part. -/
theorem assocGet_append_left {l₁ l₂ : List (String × β)} {k : String}
    (h : assocContains l₂ k = false) :
    assocGet (l₁ ++ l₂) k = assocGet l₁ k := by
  unfold assocGet
  have hn : l₂.find? (fun p => p.1 == k) = none := by
    rw [List.find?_eq_none]
    intro x hx hpx
    have : assocContains l₂ k = true := List.any_eq_true.mpr ⟨x, hx, hpx⟩
    rw [h] at this
    exact Bool.false_ne_true this
  rw [List.find?_append, hn, Option.or_none]

/-- Rewriting exactly the rows holding key `k` to value `v` makes the
lookup at `k` return `v`, provided some row holds `k`. -/
theorem assocGet_map_replace {l : List (String × β)} {k : String} {v : β}
    {g : String × β → String × β}
    (hrep : ∀ p : String × β, (p.1 == k) = true → g p = (p.1, v))
    (hkeep : ∀ p : String × β, (p.1 == k) = false → g p = p)
    (h : assocContains l k = true) :
    assocGet (l.map g) k = some v := by
  induction l with
  | nil => exact absurd h (by simp [assocContains])
  | cons p rest ih =>
    rw [List.map_cons]
    cases hp : (p.1 == k) with
    | true =>
      rw [hrep p hp]
      rw [assocGet_cons_pos (by simpa using hp)]
    | false =>
      rw [hkeep p hp]
      have hrest : assocContains rest k = true := by
        have := h
        unfold assocContains at this ⊢
        rw [List.any_cons, hp, Bool.false_or] at this
        exact this
      rw [assocGet_cons_neg hp]
      exact ih hrest

/-- A row map that does not touch rows with key `k` and does not create
new rows with key `k` leaves the lookup at `k` unchanged. -/
theorem assocGet_map_frame {l : List (String × β)} {k : String}
    {g : String × β → String × β}
    (hkeys : ∀ p : String × β, ((g p).1 == k) = (p.1 == k))
    (hfix : ∀ p : String × β, (p.1 == k) = true → g p = p) :
    assocGet (l.map g) k = assocGet l k := by
  induction l with
  | nil => rfl
  | cons p rest ih =>
    rw [List.map_cons]
    cases hp : (p.1 == k) with
    | true =>
      rw [hfix p hp, assocGet_cons_pos hp, assocGet_cons_pos hp]
    | false =>
      rw [assocGet_cons_neg (by rw [hkeys p]; exact hp), assocGet_cons_neg hp]
      exact ih

/-- Key presence is invariant under a row map that preserves each row's
match against `k`. -/
theorem assocContains_map {l : List (String × β)} {k : String}
    {g : String × β → String × β}
    (hkeys : ∀ p : String × β, ((g p).1 == k) = (p.1 == k)) :
    assocContains (l.map g) k = assocContains l k := by
  unfold assocContains
  induction l with
  | nil => rfl
  | cons p rest ih =>
    rw [List.map_cons, List.any_cons, List.any_cons, hkeys p, ih]

/-- Key presence over an append. -/
theorem assocContains_append {l₁ l₂ : List (String × β)} {k : String} :
    assocContains (l₁ ++ l₂) k = (assocContains l₁ k || assocContains l₂ k) := by
  unfold assocContains
  exact List.any_append

end AssocLemmas

/-- Reading `storeGet` after `upsert` at the same key returns the new value. -/
theorem storeGet_upsert_self (rows : Store) (k v : String) :
    storeGet (upsert rows k v) k = some v := by
  unfold upsert storeGet
  cases h : assocContains rows k with
  | true =>
    rw [if_pos rfl]
    exact assocGet_map_replace (fun p hp => by rw [if_pos hp])
      (fun p hp => by rw [if_neg (by simp [hp])]) h
  | false =>
    rw [if_neg (by simp)]
    rw [assocGet_append_right h]
    exact assocGet_cons_pos (by simp)

/-- Reading `storeGet` after `upsert` at a different key is unchanged. -/
theorem storeGet_upsert_other (rows : Store) (k k' v : String)
    (hne : (k' == k) = false) :
    storeGet (upsert rows k' v) k = storeGet rows k := by
  unfold upsert storeGet
  cases h : assocContains rows k' with
  | true =>
    rw [if_pos rfl]
    refine assocGet_map_frame (fun p => ?_) (fun p hp => ?_)
    · cases hp : (p.1 == k') <;> simp
    · have h1 : p.1 = k := beq_iff_eq.mp hp
      have h2 : (p.1 == k') = false := by
        rw [h1]
        exact beq_eq_false_iff_ne.mpr (Ne.symm (beq_eq_false_iff_ne.mp hne))
      rw [if_neg (by simp [h2])]
  | false =>
    rw [if_neg (by simp)]
    rw [assocGet_append_left (by simp [assocContains, hne])]

/-- The write loop never changes the committed view of the connection. -/
theorem writeLoop_committed (c : DbConn) (us : List (String × String))
    (f : Option Nat) : (writeLoop c us f).2.committed = c.committed := by
  induction us generalizing c f with
  | nil => rfl
  | cons kv rest ih =>
    match f with
    | some 0 => rfl
    | some (n + 1) => exact ih { c with pending := upsert c.pending kv.1 kv.2 } (some n)
    | none => exact ih { c with pending := upsert c.pending kv.1 kv.2 } none

/-- A fault injected within the range of the write list makes the write
loop fail. -/
theorem writeLoop_fault (c : DbConn) (us : List (String × String)) (k : Nat)
    (hk : k < us.length) : (writeLoop c us (some k)).1 = false := by
  induction us generalizing c k with
  | nil => simp at hk
  | cons kv rest ih =>
    match k with
    | 0 => rfl
    | n + 1 =>
      exact ih { c with pending := upsert c.pending kv.1 kv.2 } n
        (Nat.lt_of_succ_lt_succ hk)

/-- Without a fault, the write loop succeeds and its pending view is the
left fold of `upsert` over the update list. -/
theorem writeLoop_none (c : DbConn) (us : List (String × String)) :
    writeLoop c us none =
      (true, ⟨c.committed, us.foldl (fun s kv => upsert s kv.1 kv.2) c.pending⟩) := by
  induction us generalizing c with
  | nil => rfl
  | cons kv rest ih => exact ih { c with pending := upsert c.pending kv.1 kv.2 }

/-- A database error anywhere inside the write list makes `update_auth`
report failure with the stored table unchanged: the connection closes with
the transaction uncommitted, so it is rolled back. -/
theorem update_auth_fault (rows : Store) (email at_ rt : Option String)
    (k : Nat) (hk : k < (buildUpdates email rt).length) :
    update_auth rows email at_ rt (some k) = (false, rows) := by
  simp only [update_auth]
  rw [writeLoop_fault (connOpen rows) _ k hk]
  simp only [Bool.false_eq_true, if_false, connClose]
  rw [writeLoop_committed]
  rfl

/-- Without a fault, `update_auth` succeeds and the stored table is the
fold of `upsert` over the built update list. -/
theorem update_auth_none (rows : Store) (email at_ rt : Option String) :
    update_auth rows email at_ rt none =
      (true, (buildUpdates email rt).foldl (fun s kv => upsert s kv.1 kv.2) rows) := by
  simp only [update_auth]
  rw [writeLoop_none]
  rfl

/-- Looking up a key right after inserting it returns the new value. -/
theorem pyDictGet_insert_self (d : PyDict) (k : String) (v : Option String) :
    pyDictGet (pyDictInsert d k v) k = some v := by
  unfold pyDictInsert pyDictGet pyDictContains
  cases h : assocContains d k with
  | true =>
    rw [if_pos rfl]
    refine assocGet_map_replace (fun p hp => ?_) (fun p hp => ?_) h
    · rw [if_pos hp]
      have : p.1 = k := beq_iff_eq.mp hp
      rw [this]
    · rw [if_neg (by rw [hp]; simp)]
  | false =>
    rw [if_neg (by simp)]
    rw [assocGet_append_right h]
    exact assocGet_cons_pos (by simp)

/-- Inserting under one key does not change the lookup of another key. -/
theorem pyDictGet_insert_other (d : PyDict) (k k₀ : String) (v : Option String)
    (hne : (k == k₀) = false) :
    pyDictGet (pyDictInsert d k v) k₀ = pyDictGet d k₀ := by
  unfold pyDictInsert pyDictGet pyDictContains
  cases h : assocContains d k with
  | true =>
    rw [if_pos rfl]
    refine assocGet_map_frame (fun p => ?_) (fun p hp => ?_)
    · cases hp : (p.1 == k) with
      | true =>
        have : p.1 = k := beq_iff_eq.mp hp
        simp [this, hne]
      | false => simp
    · have h1 : p.1 = k₀ := beq_iff_eq.mp hp
      have h2 : (p.1 == k) = false := by
        rw [h1]
        exact beq_eq_false_iff_ne.mpr (Ne.symm (beq_eq_false_iff_ne.mp hne))
      rw [if_neg (by simp [h2])]
  | false =>
    rw [if_neg (by simp)]
    rw [assocGet_append_left (by simp [assocContains, hne])]

/-- After inserting a key it is present. -/
theorem pyDictContains_insert_self (d : PyDict) (k : String) (v : Option String) :
    pyDictContains (pyDictInsert d k v) k = true := by
  unfold pyDictInsert pyDictContains
  cases h : assocContains d k with
  | true =>
    rw [if_pos rfl]
    rw [assocContains_map (fun p => ?_), h]
    cases hp : (p.1 == k) with
    | true =>
      have : p.1 = k := beq_iff_eq.mp hp
      simp [this]
    | false => simp [beq_eq_false_iff_ne.mp hp]
  | false =>
    rw [if_neg (by simp)]
    rw [assocContains_append, h]
    simp [assocContains]

/-- Inserting under one key does not change the presence of another key. -/
theorem pyDictContains_insert_other (d : PyDict) (k k₀ : String)
    (v : Option String) (hne : (k == k₀) = false) :
    pyDictContains (pyDictInsert d k v) k₀ = pyDictContains d k₀ := by
  unfold pyDictInsert pyDictContains
  cases h : assocContains d k with
  | true =>
    rw [if_pos rfl]
    refine assocContains_map (fun p => ?_)
    cases hp : (p.1 == k) with
    | true =>
      have : p.1 = k := beq_iff_eq.mp hp
      simp [this, hne]
    | false => simp
  | false =>
    rw [if_neg (by simp)]
    rw [assocContains_append]
    simp [assocContains, hne]

/-- A conditional default insert (`if k not in d: d[k] = v`) makes the
key present. -/
theorem pyDictContains_condInsert_self (d : PyDict) (k : String)
    (v : Option String) :
    pyDictContains (if pyDictContains d k then d else pyDictInsert d k v) k
      = true := by
  cases h : pyDictContains d k with
  | true => rw [if_pos rfl]; exact h
  | false => rw [if_neg (by simp)]; exact pyDictContains_insert_self d k v

/-- A conditional default insert under one key does not change the
presence of another key. -/
theorem pyDictContains_condInsert_other (d : PyDict) (k k₀ : String)
    (v : Option String) (hne : (k == k₀) = false) :
    pyDictContains (if pyDictContains d k then d else pyDictInsert d k v) k₀
      = pyDictContains d k₀ := by
  cases h : pyDictContains d k with
  | true => rw [if_pos rfl]
  | false => rw [if_neg (by simp)]; exact pyDictContains_insert_other d k k₀ v hne

/-- A conditional default insert under one key does not change the lookup
of another key. -/
theorem pyDictGet_condInsert_other (d : PyDict) (k k₀ : String)
    (v : Option String) (hne : (k == k₀) = false) :
    pyDictGet (if pyDictContains d k then d else pyDictInsert d k v) k₀
      = pyDictGet d k₀ := by
  cases h : pyDictContains d k with
  | true => rw [if_pos rfl]
  | false => rw [if_neg (by simp)]; exact pyDictGet_insert_other d k k₀ v hne

/-- Folding the row-to-dict insertion over rows none of which yields the
field `k` leaves the lookup of `k` unchanged. -/
theorem foldlInsert_get (l : List (String × String)) (d : PyDict) (k : String)
    (h : ∀ r ∈ l, (lastComponent r.1 == k) = false) :
    pyDictGet (l.foldl (fun d r => pyDictInsert d (lastComponent r.1) (some r.2)) d) k
      = pyDictGet d k := by
  induction l generalizing d with
  | nil => rfl
  | cons r rest ih =>
    rw [List.foldl_cons]
    rw [ih _ (fun x hx => h x (List.mem_cons_of_mem r hx))]
    exact pyDictGet_insert_other d _ k _ (h r (List.mem_cons_self r rest))

/-- Folding the row-to-dict insertion over rows none of which yields the
field `k` leaves the presence of `k` unchanged. -/
theorem foldlInsert_contains (l : List (String × String)) (d : PyDict)
    (k : String) (h : ∀ r ∈ l, (lastComponent r.1 == k) = false) :
    pyDictContains (l.foldl (fun d r => pyDictInsert d (lastComponent r.1) (some r.2)) d) k
      = pyDictContains d k := by
  induction l generalizing d with
  | nil => rfl
  | cons r rest ih =>
    rw [List.foldl_cons]
    rw [ih _ (fun x hx => h x (List.mem_cons_of_mem r hx))]
    exact pyDictContains_insert_other d _ k _ (h r (List.mem_cons_self r rest))

/-- After the sentinel-defaults pipeline all three fields are present. -/
theorem applyDefaults_contains_all (d : PyDict) :
    pyDictContains (applyDefaults d) "email" = true ∧
    pyDictContains (applyDefaults d) "accessToken" = true ∧
    pyDictContains (applyDefaults d) "refreshToken" = true := by
  simp only [applyDefaults]
  refine ⟨?_, ?_, ?_⟩
  · rw [pyDictContains_condInsert_other _ _ _ _ (by decide),
      pyDictContains_condInsert_other _ _ _ _ (by decide)]
    exact pyDictContains_condInsert_self _ _ _
  · rw [pyDictContains_condInsert_other _ _ _ _ (by decide)]
    exact pyDictContains_condInsert_self _ _ _
  · exact pyDictContains_condInsert_self _ _ _

/-- When the email field is absent, the pipeline returns the `'未知'`
sentinel for it. -/
theorem applyDefaults_email (d : PyDict)
    (h : pyDictContains d "email" = false) :
    pyDictGet (applyDefaults d) "email" = some (some "未知") := by
  simp only [applyDefaults]
  rw [pyDictGet_condInsert_other _ _ _ _ (by decide),
    pyDictGet_condInsert_other _ _ _ _ (by decide)]
  rw [if_neg (by rw [h]; simp)]
  exact pyDictGet_insert_self _ _ _

/-- When the access-token field is absent, the pipeline returns Python
`None` for it. -/
theorem applyDefaults_access (d : PyDict)
    (h : pyDictContains d "accessToken" = false) :
    pyDictGet (applyDefaults d) "accessToken" = some none := by
  simp only [applyDefaults]
  rw [pyDictGet_condInsert_other _ _ _ _ (by decide)]
  have hc1 : pyDictContains
      (if pyDictContains d "email" then d
       else pyDictInsert d "email" (some "未知")) "accessToken" = false := by
    rw [pyDictContains_condInsert_other _ _ _ _ (by decide)]
    exact h
  rw [if_neg (by rw [hc1]; simp)]
  exact pyDictGet_insert_self _ _ _

/-- When the refresh-token field is absent, the pipeline returns Python
`None` for it. -/
theorem applyDefaults_refresh (d : PyDict)
    (h : pyDictContains d "refreshToken" = false) :
    pyDictGet (applyDefaults d) "refreshToken" = some none := by
  simp only [applyDefaults]
  have hc1 : pyDictContains
      (if pyDictContains d "email" then d
       else pyDictInsert d "email" (some "未知")) "refreshToken" = false := by
    rw [pyDictContains_condInsert_other _ _ _ _ (by decide)]
    exact h
  have hc2 : pyDictContains
      (if pyDictContains
           (if pyDictContains d "email" then d
            else pyDictInsert d "email" (some "未知")) "accessToken"
         then (if pyDictContains d "email" then d
            else pyDictInsert d "email" (some "未知"))
         else pyDictInsert
           (if pyDictContains d "email" then d
            else pyDictInsert d "email" (some "未知")) "accessToken" none)
      "refreshToken" = false := by
    rw [pyDictContains_condInsert_other _ _ _ _ (by decide)]
    exact hc1
  rw [if_neg (by rw [hc2]; simp)]
  exact pyDictGet_insert_self _ _ _

/-- The state a loop-iteration outcome carries. -/
def stepState : StepOut → SysState
  | .done _ s => s
  | .next s => s

/-- No branch of a loop iteration writes the token file. -/
theorem stepState_tokenFile (st : SysState) (env : AttemptEnv) (b : Bool) :
    (stepState (attemptStep st env b)).tokenFile = st.tokenFile := by
  obtain ⟨f, fb, df⟩ := env
  cases f with
  | netErr => cases b <;> rfl
  | malformed => rfl
  | ok acc =>
    unfold attemptStep
    simp only
    split
    · rfl
    · split
      · split <;> rfl
      · split
        · rfl
        · split <;> rfl

/-- The retry loop never writes the token file. -/
theorem syncLoop_tokenFile (envs : Nat → AttemptEnv) (n i : Nat)
    (st : SysState) (reqs : Nat) :
    (syncLoop envs n i st reqs).2.1.tokenFile = st.tokenFile := by
  induction n generalizing i st reqs with
  | zero => rfl
  | succ m ih =>
    simp only [syncLoop]
    cases h : attemptStep st (envs i) (m == 0) with
    | done ok st2 =>
      have hs := stepState_tokenFile st (envs i) (m == 0)
      rw [h] at hs
      exact hs
    | next st2 =>
      have hs := stepState_tokenFile st (envs i) (m == 0)
      rw [h] at hs
      rw [ih]
      exact hs

/-- The retry loop enters at most `n` more iterations, making one
provisioning request per iteration. -/
theorem syncLoop_reqs_le (envs : Nat → AttemptEnv) (n i : Nat)
    (st : SysState) (reqs : Nat) :
    (syncLoop envs n i st reqs).2.2 ≤ reqs + n := by
  induction n generalizing i st reqs with
  | zero => exact Nat.le_refl reqs
  | succ m ih =>
    simp only [syncLoop]
    cases attemptStep st (envs i) (m == 0) with
    | done ok st2 => exact Nat.add_le_add_left (Nat.succ_le_succ (Nat.zero_le m)) reqs
    | next st2 =>
      calc (syncLoop envs m (i + 1) st2 (reqs + 1)).2.2
          ≤ reqs + 1 + m := ih (i + 1) st2 (reqs + 1)
        _ = reqs + (m + 1) := by omega

/-- A value passing the token-validity test is truthy. -/
theorem tokenValidity_truthy (o : Option String) (h : tokenValidity o = true) :
    pyTruthy o = true := by
  cases o with
  | none => exact absurd h (by simp [tokenValidity])
  | some t =>
    unfold tokenValidity at h
    rw [Bool.and_eq_true] at h
    exact h.1

/-! ## Claim theorems -/

/-- C3: the token-validity check accepts a string exactly when it is
non-empty and begins with the literal prefix "ey"; every string that does
not start with "ey" is rejected, and every string that starts with "ey"
is accepted regardless of further structure. -/
theorem c3_token_validity (t : String) :
    (tokenValidity (some t) = true ↔ t ≠ "" ∧ ∃ r : String, t = "ey" ++ r) ∧
    ((∀ r : String, t ≠ "ey" ++ r) → tokenValidity (some t) = false) ∧
    (∀ r : String, tokenValidity (some ("ey" ++ r)) = true) := by
  refine ⟨?_, ?_, ?_⟩
  · unfold tokenValidity pyTruthy
    rw [Bool.and_eq_true]
    constructor
    · rintro ⟨h1, h2⟩
      exact ⟨by simpa using h1, (pyStartswith_iff t "ey").mp h2⟩
    · rintro ⟨h1, h2⟩
      exact ⟨by simpa using h1, (pyStartswith_iff t "ey").mpr h2⟩
  · intro h
    have hb : pyStartswith t "ey" = false := by
      cases hb : pyStartswith t "ey" with
      | false => rfl
      | true =>
        obtain ⟨r, hr⟩ := (pyStartswith_iff t "ey").mp hb
        exact absurd hr (h r)
    show (pyTruthy (some t) && pyStartswith t "ey") = false
    rw [hb, Bool.and_false]
  · intro r
    unfold tokenValidity pyTruthy
    rw [Bool.and_eq_true]
    exact ⟨by simp [ey_append_ne_empty r],
      (pyStartswith_iff _ "ey").mpr ⟨r, rfl⟩⟩

/-- C3 witness: a concrete accepted token and a concrete rejected one. -/
theorem c3_witness :
    tokenValidity (some "eyABC") = true ∧ tokenValidity (some "xyz") = false :=
  ⟨(c3_token_validity "eyABC").1.mpr ⟨by decide, ⟨"ABC", by decide⟩⟩,
   (c3_token_validity "xyz").2.1 (fun r h => by
     have h2 : ['x', 'y', 'z'] = 'e' :: 'y' :: r.data := congrArg String.data h
     injection h2 with h3 _
     exact absurd h3 (by decide))⟩

/-- C8 counterexample: saving the token `" tok-1 "` and reading it back
yields `"tok-1"`, not the saved string — `get_token` strips surrounding
whitespace, so the claim "returns exactly t" fails. -/
theorem c8_counterexample :
    get_token (save_token none " tok-1 ") = some "tok-1" ∧
    get_token (save_token none " tok-1 ") ≠ some " tok-1 " :=
  ⟨rfl, by decide⟩

/-- C8 (amended): after `save_token t`, `get_token` returns `t` stripped
of surrounding whitespace; in particular it returns exactly `t` whenever
`t` carries no surrounding whitespace. -/
theorem c8_save_get (f : TokenFile) (t : String) :
    get_token (save_token f t) = some (pyStrip t) ∧
    (pyStrip t = t → get_token (save_token f t) = some t) :=
  ⟨rfl, fun h => by
    have h0 : get_token (save_token f t) = some (pyStrip t) := rfl
    rw [h] at h0
    exact h0⟩

/-- C8 witness: a whitespace-free token round-trips unchanged. -/
theorem c8_witness : get_token (save_token none "tok-1") = some "tok-1" :=
  (c8_save_get none "tok-1").2 (by decide)

/-- C6 counterexample: with the 7th write (index 6) of an 11-write commit
raising a database error, `update_auth` reports failure but the table is
left empty — the six earlier writes did NOT persist, because the
connection closes with the transaction uncommitted and it is rolled
back. -/
theorem c6_counterexample :
    update_auth [] (some "a@b.com") none (some "eyZ") (some 6) = (false, []) ∧
    storeGet (update_auth [] (some "a@b.com") none (some "eyZ") (some 6)).2
      "cursorAuth/isLoggedIn" = none :=
  ⟨rfl, rfl⟩

/-- C6 (amended): when any write of the commit raises a database error,
`update_auth` reports failure and none of the writes of that commit
persist: the single transaction is rolled back on close, so the commit is
atomic per `update_auth` call. -/
theorem c6_commit_rollback (rows : Store) (email at_ rt : Option String)
    (k : Nat) (hk : k < (buildUpdates email rt).length) :
    update_auth rows email at_ rt (some k) = (false, rows) :=
  update_auth_fault rows email at_ rt k hk

/-- C6 witness: a concrete faulted commit leaves a concrete store
unchanged. -/
theorem c6_witness :
    update_auth [("k", "v")] (some "a@b.com") none (some "eyZ") (some 6)
      = (false, [("k", "v")]) :=
  c6_commit_rollback [("k", "v")] (some "a@b.com") none (some "eyZ") 6 (by decide)

/-- C10: the store state `update_auth` produces is independent of its
`access_token` argument, and when the refresh token is valid and no fault
occurs, all five token-alias keys receive the refresh-token value. -/
theorem c10_access_token_independent (rows : Store)
    (email at1 at2 rt : Option String) (f : Option Nat) :
    update_auth rows email at1 rt f = update_auth rows email at2 rt f ∧
    (∀ t : String, rt = some t → tokenValidity rt = true → f = none →
      (storeGet (update_auth rows email at1 rt f).2
         "cursorAuth/cachedAccessToken" = some t ∧
       storeGet (update_auth rows email at1 rt f).2
         "cursorAuth/accessToken" = some t ∧
       storeGet (update_auth rows email at1 rt f).2
         "cursorAuth/token" = some t ∧
       storeGet (update_auth rows email at1 rt f).2
         "cursorAuth/refreshToken" = some t ∧
       storeGet (update_auth rows email at1 rt f).2
         "cursorAuth/cachedRefreshToken" = some t)) := by
  refine ⟨rfl, ?_⟩
  rintro t rfl hv rfl
  rw [update_auth_none]
  have hbu : buildUpdates email (some t) =
      ([("cursorAuth/cachedSignUpType", "Auth_0"),
        ("cursorAuth/signUpType", "Auth_0"),
        ("cursorAuth/isLoggedIn", "true"),
        ("cursorAuth/stripeMembershipType", "free_trial")]
       ++ (match email with
           | some e => [("cursorAuth/cachedEmail", e), ("cursorAuth/email", e)]
           | none => []))
      ++ [("cursorAuth/cachedAccessToken", t),
          ("cursorAuth/accessToken", t),
          ("cursorAuth/token", t),
          ("cursorAuth/refreshToken", t),
          ("cursorAuth/cachedRefreshToken", t)] := by
    simp [buildUpdates, hv]
  rw [hbu, List.foldl_append]
  simp only [List.foldl_cons, List.foldl_nil]
  refine ⟨?_, ?_, ?_, ?_, ?_⟩
  · rw [storeGet_upsert_other _ _ _ _ (by decide),
      storeGet_upsert_other _ _ _ _ (by decide),
      storeGet_upsert_other _ _ _ _ (by decide),
      storeGet_upsert_other _ _ _ _ (by decide)]
    exact storeGet_upsert_self _ _ _
  · rw [storeGet_upsert_other _ _ _ _ (by decide),
      storeGet_upsert_other _ _ _ _ (by decide),
      storeGet_upsert_other _ _ _ _ (by decide)]
    exact storeGet_upsert_self _ _ _
  · rw [storeGet_upsert_other _ _ _ _ (by decide),
      storeGet_upsert_other _ _ _ _ (by decide)]
    exact storeGet_upsert_self _ _ _
  · rw [storeGet_upsert_other _ _ _ _ (by decide)]
    exact storeGet_upsert_self _ _ _
  · exact storeGet_upsert_self _ _ _

/-- C10 witness: two calls differing only in `access_token` produce equal
stores, and a concrete valid refresh token lands under the alias keys. -/
theorem c10_witness :
    update_auth [("cursorAuth/accessToken", "old")] (some "e") (some "AT-1")
        (some "eyT") none
      = update_auth [("cursorAuth/accessToken", "old")] (some "e") (some "AT-2")
        (some "eyT") none ∧
    storeGet (update_auth [("cursorAuth/accessToken", "old")] (some "e")
        (some "AT-1") (some "eyT") none).2 "cursorAuth/accessToken"
      = some "eyT" :=
  ⟨(c10_access_token_independent [("cursorAuth/accessToken", "old")] (some "e")
      (some "AT-1") (some "AT-2") (some "eyT") none).1,
   ((c10_access_token_independent [("cursorAuth/accessToken", "old")] (some "e")
      (some "AT-1") (some "AT-2") (some "eyT") none).2 "eyT" rfl (by decide)
      rfl).2.1⟩

/-- After clearing the auth namespace, no row matches the namespace
pattern any more. -/
theorem clearAuthRows_no_auth (rows : Store) :
    (clearAuthRows rows).filter (fun r => inAuthNamespace r.1) = [] := by
  unfold clearAuthRows
  rw [List.filter_filter]
  rw [List.filter_eq_nil_iff]
  intro a _
  cases h : inAuthNamespace a.1 <;> simp [h]

/-- C4 counterexample: clearing and then reading does not return an empty
mapping — the three sentinel defaults are always present. -/
theorem c4_counterexample :
    get_auth_info (clear_auth_info
        ⟨some "tok", [("cursorAuth/email", "a@b.com")]⟩).rows
      = [("email", some "未知"), ("accessToken", none), ("refreshToken", none)] ∧
    get_auth_info (clear_auth_info
        ⟨some "tok", [("cursorAuth/email", "a@b.com")]⟩).rows ≠ [] :=
  ⟨rfl, by decide⟩

/-- C4 (amended): for every store state, clearing the auth namespace and
then reading it back returns a mapping with no stored value — only the
three forced sentinel defaults (`email ↦ '未知'`, `accessToken ↦ None`,
`refreshToken ↦ None`). -/
theorem c4_clear_then_read (st : SysState) :
    get_auth_info (clear_auth_info st).rows
      = [("email", some "未知"), ("accessToken", none), ("refreshToken", none)] := by
  show get_auth_info (clearAuthRows st.rows) = _
  unfold get_auth_info
  rw [clearAuthRows_no_auth]
  rfl

/-- C7 counterexample: on a store with no email row the sentinel returned
for the email field is the string `'未知'`, not the string `"unknown"`
named by the claim. -/
theorem c7_counterexample :
    pyDictGet (get_auth_info []) "email" = some (some "未知") ∧
    pyDictGet (get_auth_info []) "email" ≠ some (some "unknown") :=
  ⟨rfl, by decide⟩

/-- C7 (amended): `get_auth_info` is total and never lacks the three
fields: the result always contains `email`, `accessToken` and
`refreshToken`; when the store has no row yielding the field, `email`
defaults to the sentinel `'未知'` (Chinese for "unknown") and the two
token fields default to Python `None`. -/
theorem c7_read_defaults (rows : Store) :
    (pyDictContains (get_auth_info rows) "email" = true ∧
     pyDictContains (get_auth_info rows) "accessToken" = true ∧
     pyDictContains (get_auth_info rows) "refreshToken" = true) ∧
    ((∀ r ∈ rows, ¬(inAuthNamespace r.1 = true ∧ lastComponent r.1 = "email")) →
      pyDictGet (get_auth_info rows) "email" = some (some "未知")) ∧
    ((∀ r ∈ rows, ¬(inAuthNamespace r.1 = true ∧ lastComponent r.1 = "accessToken")) →
      pyDictGet (get_auth_info rows) "accessToken" = some none) ∧
    ((∀ r ∈ rows, ¬(inAuthNamespace r.1 = true ∧ lastComponent r.1 = "refreshToken")) →
      pyDictGet (get_auth_info rows) "refreshToken" = some none) := by
  have hfetch : ∀ (k : String),
      (∀ r ∈ rows, ¬(inAuthNamespace r.1 = true ∧ lastComponent r.1 = k)) →
      ∀ r ∈ rows.filter (fun r => inAuthNamespace r.1),
        (lastComponent r.1 == k) = false := by
    intro k hk r hr
    have hmem := List.mem_filter.mp hr
    rw [beq_eq_false_iff_ne]
    intro hcon
    exact hk r hmem.1 ⟨hmem.2, hcon⟩
  unfold get_auth_info
  refine ⟨applyDefaults_contains_all _, fun hk => ?_, fun hk => ?_, fun hk => ?_⟩
  · refine applyDefaults_email _ ?_
    rw [foldlInsert_contains _ _ _ (hfetch "email" hk)]
    rfl
  · refine applyDefaults_access _ ?_
    rw [foldlInsert_contains _ _ _ (hfetch "accessToken" hk)]
    rfl
  · refine applyDefaults_refresh _ ?_
    rw [foldlInsert_contains _ _ _ (hfetch "refreshToken" hk)]
    rfl

/-- C7 witness: a store whose only auth row yields an unrelated field
gets all three defaults. -/
theorem c7_witness :
    pyDictGet (get_auth_info [("cursorAuth/other", "v")]) "email"
      = some (some "未知") ∧
    pyDictGet (get_auth_info [("cursorAuth/other", "v")]) "accessToken"
      = some none ∧
    pyDictGet (get_auth_info [("cursorAuth/other", "v")]) "refreshToken"
      = some none :=
  ⟨(c7_read_defaults _).2.1 (by decide),
   (c7_read_defaults _).2.2.1 (by decide),
   (c7_read_defaults _).2.2.2 (by decide)⟩

/-- A network error reaches the `except requests.RequestException`
handler: retry unless this is the final attempt, which ends the run. -/
theorem attemptStep_netErr (st : SysState) (env : AttemptEnv) (b : Bool)
    (h : env.fetch = .netErr) :
    attemptStep st env b = if b then .done false st else .next st := by
  unfold attemptStep
  rw [h]

/-- A network error on an attempt that is not the last one lets the loop
continue to the next attempt with the state unchanged. -/
theorem syncLoop_netErr_cont (envs : Nat → AttemptEnv) (m i : Nat)
    (st : SysState) (reqs : Nat) (h : (envs i).fetch = .netErr) :
    syncLoop envs (m + 2) i st reqs
      = syncLoop envs (m + 1) (i + 1) st (reqs + 1) := by
  conv_lhs => rw [syncLoop]
  rw [attemptStep_netErr st (envs i) _ h]
  rfl

/-- A network error on the last attempt ends the run with failure. -/
theorem syncLoop_netErr_last (envs : Nat → AttemptEnv) (i : Nat)
    (st : SysState) (reqs : Nat) (h : (envs i).fetch = .netErr) :
    syncLoop envs 1 i st reqs = (false, st, reqs + 1) := by
  conv_lhs => rw [syncLoop]
  rw [attemptStep_netErr st (envs i) _ h]
  rfl

/-- A usable account whose commit hits a database fault makes the
iteration fall through to the next attempt with the state unchanged (the
transaction was rolled back). -/
theorem attemptStep_commit_fail (st : SysState) (fb : FallbackResult)
    (isLast : Bool) (acc : AccountResp) (k : Nat)
    (hv : tokenValidity acc.refresh_token = true)
    (hex : accountExcluded acc.status acc.pull_count = false)
    (hem : pyTruthy acc.email = true)
    (hk : k < (buildUpdates acc.email acc.refresh_token).length) :
    attemptStep st ⟨.ok acc, fb, some k⟩ isLast = .next st := by
  have htr : pyTruthy acc.refresh_token = true := tokenValidity_truthy _ hv
  simp only [attemptStep]
  rw [if_pos hv]
  simp only
  rw [hex]
  simp only [Bool.false_eq_true, if_false]
  rw [hem, htr]
  simp only [Bool.and_self, Bool.and_true, Bool.not_true, Bool.false_eq_true,
    if_false]
  rw [update_auth_fault st.rows acc.email acc.refresh_token acc.refresh_token k hk]
  rfl

/-- C1 counterexample: an account with `status = ACTIVE` and
`pull_count = 0` (so not quota-excluded) but no email is fetched on every
attempt, is skipped every time without committing anything, and the run
fails — being quota-excluded is not the only way an account is skipped,
refuting the "only if" direction. -/
theorem c1_counterexample :
    accountExcluded (some "ACTIVE") 0 = false ∧
    update_cursor_auth ⟨some "tok", []⟩
        (fun _ => ⟨.ok ⟨none, none, some "eyA", some "ACTIVE", 0⟩, .err, none⟩)
      = (false, ⟨none, []⟩, 3) :=
  ⟨rfl, rfl⟩

/-- C1 (amended): an account whose status is EXCEEDED or DEPLETED or
whose pull count is at least 5 is always skipped without committing (the
iteration either falls through to the next attempt or ends the run in
failure, with the state untouched); the condition is sufficient but not
necessary for skipping.  In particular `pull_count = 5` with
`status = ACTIVE` is excluded — the quota rule applies regardless of
status. -/
theorem c1_quota_exclusion :
    (∀ (st : SysState) (fb : FallbackResult) (df : Option Nat)
       (isLast : Bool) (acc : AccountResp),
       accountExcluded acc.status acc.pull_count = true →
       attemptStep st ⟨.ok acc, fb, df⟩ isLast = .next st ∨
       attemptStep st ⟨.ok acc, fb, df⟩ isLast = .done false st) ∧
    accountExcluded (some "ACTIVE") 5 = true := by
  constructor
  · intro st fb df isLast acc hex
    simp only [attemptStep]
    split
    · exact Or.inl rfl
    · rw [hex]
      cases isLast
      · exact Or.inl (by simp)
      · exact Or.inr (by simp)
  · decide

/-- C1 witness: the quota-excluded ACTIVE account with pull count 5 is
skipped by a concrete non-final iteration. -/
theorem c1_witness :
    attemptStep ⟨none, []⟩
        ⟨.ok ⟨some "e@x", some "pw", some "eyT", some "ACTIVE", 5⟩, .err, none⟩
        false
      = .next ⟨none, []⟩ ∨
    attemptStep ⟨none, []⟩
        ⟨.ok ⟨some "e@x", some "pw", some "eyT", some "ACTIVE", 5⟩, .err, none⟩
        false
      = .done false ⟨none, []⟩ :=
  c1_quota_exclusion.1 ⟨none, []⟩ .err none false
    ⟨some "e@x", some "pw", some "eyT", some "ACTIVE", 5⟩ (by decide)

/-- C2: the retry loop makes at most 3 provisioning requests in every
run; with a truthy stored token and three consecutive network errors the
run ends in failure after exactly 3 attempts (no 4th request); and a
network error on an attempt before the last one retries instead of ending
the loop. -/
theorem c2_three_attempts (st : SysState) (envs : Nat → AttemptEnv) :
    (update_cursor_auth st envs).2.2 ≤ max_retries ∧
    (pyTruthy (get_token st.tokenFile) = true →
      (envs 0).fetch = .netErr → (envs 1).fetch = .netErr →
      (envs 2).fetch = .netErr →
      update_cursor_auth st envs = (false, clear_auth_info st, 3)) ∧
    (∀ (m i : Nat) (st2 : SysState) (reqs : Nat),
      (envs i).fetch = .netErr →
      syncLoop envs (m + 2) i st2 reqs
        = syncLoop envs (m + 1) (i + 1) st2 (reqs + 1)) := by
  refine ⟨?_, ?_, ?_⟩
  · unfold update_cursor_auth
    show (if (!pyTruthy (get_token st.tokenFile)) = true then (false, st, 0)
          else syncLoop envs max_retries 0 (clear_auth_info st) 0).2.2
        ≤ max_retries
    cases hb : pyTruthy (get_token st.tokenFile) with
    | false => simp [max_retries]
    | true =>
      simpa using syncLoop_reqs_le envs max_retries 0 (clear_auth_info st) 0
  · intro htok h0 h1 h2
    unfold update_cursor_auth
    show (if (!pyTruthy (get_token st.tokenFile)) = true then (false, st, 0)
          else syncLoop envs max_retries 0 (clear_auth_info st) 0)
        = (false, clear_auth_info st, 3)
    rw [htok]
    show syncLoop envs 3 0 (clear_auth_info st) 0 = (false, clear_auth_info st, 3)
    rw [show (3 : Nat) = 1 + 2 from rfl,
      syncLoop_netErr_cont envs 1 0 (clear_auth_info st) 0 h0,
      show (1 + 1 : Nat) = 0 + 2 from rfl,
      syncLoop_netErr_cont envs 0 1 (clear_auth_info st) (0 + 1) h1,
      syncLoop_netErr_last envs 2 (clear_auth_info st) (0 + 1 + 1) h2]
  · intro m i st2 reqs h
    exact syncLoop_netErr_cont envs m i st2 reqs h

/-- C2 witness: a concrete all-network-error run fails after exactly 3
requests, leaving the cleared state. -/
theorem c2_witness :
    update_cursor_auth ⟨some "tok", [("x", "y")]⟩ (fun _ => ⟨.netErr, .err, none⟩)
      = (false, ⟨none, [("x", "y")]⟩, 3) :=
  (c2_three_attempts ⟨some "tok", [("x", "y")]⟩
    (fun _ => ⟨.netErr, .err, none⟩)).2.1 (by decide) rfl rfl rfl

/-- C5 counterexample: the first attempt fetches a usable account but its
commit fails with a database error; the orchestrator does NOT end the run
— it fetches another account on the second attempt, commits it, and ends
in SUCCESS after 2 provisioning requests. -/
theorem c5_counterexample :
    (update_cursor_auth ⟨some "tok", []⟩
        (fun i => if i == 0 then
          ⟨.ok ⟨some "a@b.com", some "pw", some "ey.x", some "ACTIVE", 0⟩,
            .err, some 0⟩
        else
          ⟨.ok ⟨some "a@b.com", some "pw", some "ey.x", some "ACTIVE", 0⟩,
            .err, none⟩)).1 = true ∧
    (update_cursor_auth ⟨some "tok", []⟩
        (fun i => if i == 0 then
          ⟨.ok ⟨some "a@b.com", some "pw", some "ey.x", some "ACTIVE", 0⟩,
            .err, some 0⟩
        else
          ⟨.ok ⟨some "a@b.com", some "pw", some "ey.x", some "ACTIVE", 0⟩,
            .err, none⟩)).2.2 = 2 :=
  ⟨rfl, rfl⟩

/-- C5 (amended): a store error during an attempt's commit makes that
attempt fail with the store rolled back; on the final attempt the run
then ends FAILED with the state unchanged, while on an earlier attempt
the orchestrator falls through and fetches another account. -/
theorem c5_commit_retry (envs : Nat → AttemptEnv) (i : Nat) (st : SysState)
    (reqs : Nat) (acc : AccountResp) (fb : FallbackResult) (k : Nat)
    (henv : envs i = ⟨.ok acc, fb, some k⟩)
    (hv : tokenValidity acc.refresh_token = true)
    (hex : accountExcluded acc.status acc.pull_count = false)
    (hem : pyTruthy acc.email = true)
    (hk : k < (buildUpdates acc.email acc.refresh_token).length) :
    syncLoop envs 1 i st reqs = (false, st, reqs + 1) ∧
    (∀ m : Nat, syncLoop envs (m + 2) i st reqs
      = syncLoop envs (m + 1) (i + 1) st (reqs + 1)) := by
  have hstep : ∀ b, attemptStep st (envs i) b = .next st := by
    intro b
    rw [henv]
    exact attemptStep_commit_fail st fb b acc k hv hex hem hk
  constructor
  · conv_lhs => rw [syncLoop]
    rw [hstep]
    rfl
  · intro m
    conv_lhs => rw [syncLoop]
    rw [hstep]

/-- C5 witness: a concrete last-attempt commit fault ends the loop in
failure with the state unchanged, and a concrete earlier-attempt commit
fault continues to the next attempt. -/
theorem c5_witness :
    syncLoop (fun _ =>
        ⟨.ok ⟨some "a@b.com", some "pw", some "ey.x", some "ACTIVE", 0⟩,
          .err, some 0⟩) 1 0 ⟨none, []⟩ 2
      = (false, ⟨none, []⟩, 3) ∧
    syncLoop (fun _ =>
        ⟨.ok ⟨some "a@b.com", some "pw", some "ey.x", some "ACTIVE", 0⟩,
          .err, some 0⟩) 2 0 ⟨none, []⟩ 0
      = syncLoop (fun _ =>
        ⟨.ok ⟨some "a@b.com", some "pw", some "ey.x", some "ACTIVE", 0⟩,
          .err, some 0⟩) 1 1 ⟨none, []⟩ 1 :=
  ⟨(c5_commit_retry _ 0 ⟨none, []⟩ 2 _ .err 0 rfl (by decide) (by decide)
      (by decide) (by decide)).1,
   (c5_commit_retry _ 0 ⟨none, []⟩ 0 _ .err 0 rfl (by decide) (by decide)
      (by decide) (by decide)).2 0⟩

/-- C9: `clear_auth_info` deletes the bearer-token file in addition to
the `cursorAuth/` rows, and a sync run that passes the token gate (and
therefore reaches the CLEARING phase) leaves the token file deleted:
`get_token` returns absent afterwards, whatever the loop then does. -/
theorem c9_clear_deletes_token (st : SysState) (envs : Nat → AttemptEnv) :
    ((clear_auth_info st).tokenFile = none ∧
     (clear_auth_info st).rows = clearAuthRows st.rows) ∧
    (pyTruthy (get_token st.tokenFile) = true →
      (update_cursor_auth st envs).2.1.tokenFile = none ∧
      get_token (update_cursor_auth st envs).2.1.tokenFile = none) := by
  refine ⟨⟨rfl, rfl⟩, fun htok => ?_⟩
  have h1 : (update_cursor_auth st envs).2.1.tokenFile = none := by
    unfold update_cursor_auth
    show (if (!pyTruthy (get_token st.tokenFile)) = true then (false, st, 0)
          else syncLoop envs max_retries 0 (clear_auth_info st) 0).2.1.tokenFile
        = none
    rw [htok]
    show (syncLoop envs max_retries 0 (clear_auth_info st) 0).2.1.tokenFile = none
    rw [syncLoop_tokenFile]
    rfl
  exact ⟨h1, by rw [h1]; rfl⟩

/-- C9 witness: a concrete run that reaches CLEARING deletes the token
file. -/
theorem c9_witness :
    (update_cursor_auth ⟨some "tok", [("cursorAuth/email", "e@x")]⟩
        (fun _ => ⟨.netErr, .err, none⟩)).2.1.tokenFile = none :=
  ((c9_clear_deletes_token ⟨some "tok", [("cursorAuth/email", "e@x")]⟩
    (fun _ => ⟨.netErr, .err, none⟩)).2 (by decide)).1

end ClientPk
